import Mathlib

/-!
Shallow embedding of `src/api/components/global/auth/controller.ts`
(class `AuthController`) of the aionic-core repository.

Modelling conventions:
* The collaborator stores (user store, invitation store, cache, outbound
  mail) are carried in an explicit `AuthState`; each handler is a pure
  function from request data and state to an `Outcome` and a new state.
* JavaScript falsy checks on request strings (`!email`) cover both an
  absent field and the empty string; we encode such fields as `String`
  with `""` standing for absent/empty, which lands in the same branch.
* `req.body.user` itself is an `Option`: destructuring `undefined` in JS
  throws a `TypeError` that the surrounding `try/catch` forwards to
  `next(err)`; we model that outcome as `Outcome.nextError`.
* External primitives (bcrypt-style password hashing and verification,
  JWT creation, validator.js `isEmail`, UUID generation) are imported
  collaborators, not code of this repository: they appear as abstract
  function fields of a `Services` record.
* Database identity: saved rows receive fresh ids from counters
  (`nextId`, `nextInvId`) in the state; `delete(entity)` removes by id.
-/

/-- Role attached to a user (`userRole: { id: 1, name: 'User' }`). -/
structure Role where
  id : Nat
  name : String
deriving DecidableEq, Repr

/-- A stored user row. `password` is `Option` because `delete user.password`
removes the field from the in-memory object. -/
structure User where
  id : Nat
  email : String
  firstname : String
  lastname : String
  password : Option String
  active : Bool
  userRole : Option Role
deriving DecidableEq, Repr

/-- Projection returned by the sign-in read, which selects only
`['id', 'email', 'firstname', 'lastname', 'password']`. -/
structure SigninUserView where
  id : Nat
  email : String
  firstname : String
  lastname : String
  password : Option String
deriving DecidableEq, Repr

/-- A stored user invitation row (`{ email, hash }` plus its row id). -/
structure UserInvitation where
  id : Nat
  email : String
  hash : String
deriving DecidableEq, Repr

/-- Collaborator-owned state visible to the handlers: the user store, the
invitation store, the cache keys currently present, the outbound mails
sent so far (recipient, hash), and the id counters of the two stores. -/
structure AuthState where
  users : List User
  invitations : List UserInvitation
  cache : List String
  sentMails : List (String × String)
  nextId : Nat
  nextInvId : Nat
deriving DecidableEq, Repr

/-- External service primitives used by the controller. `generateUuid` is
the value produced by the single `UtilityService.generateUuid()` call a
handler invocation makes. -/
structure Services where
  hashPassword : String → String
  verifyPassword : String → Option String → Bool
  createToken : Nat → String
  isEmail : String → Bool
  generateUuid : String

/-- The observable outcome of one handler invocation: a JSON error body
`{status, error}`, the sign-in payload `{status, data: {user, token}}`,
a `{status, data: url}` payload, an empty `.send()` response, an HTTP
redirect (never produced by this controller), or an error forwarded to
the centralized error path via `next(err)`. -/
inductive Outcome where
  | jsonError (status : Nat) (error : String)
  | dataUserToken (status : Nat) (user : SigninUserView) (token : String)
  | dataUrl (status : Nat) (url : String)
  | empty (status : Nat)
  | redirect (status : Nat) (location : String)
  | nextError (err : String)
deriving DecidableEq, Repr

/-- The `TypeError` thrown by destructuring `req.body.user` when the body
carries no `user` object; its exact message is runtime-dependent, so we
fix one representative value. -/
def destructuringError : String :=
  "TypeError: cannot destructure property of undefined"

/-- Sign-in request payload `{ email, password }`. -/
structure SigninPayload where
  email : String
  password : String
deriving DecidableEq, Repr

/-- Sign-in request body; `user` is absent when the client sent none. -/
structure SigninBody where
  user : Option SigninPayload
deriving DecidableEq, Repr

/-- Registration request payload: the fields the client supplies, spread
into the saved user by `...req.body.user`. -/
structure UserPayload where
  email : String
  password : String
  firstname : String
  lastname : String
  active : Bool
deriving DecidableEq, Repr

/-- Registration request body; `user` is absent when the client sent none. -/
structure RegisterBody where
  user : Option UserPayload
deriving DecidableEq, Repr

/-- Embeds `getUserInvitation(hash, email?)` (controller.ts:299-305):
queries the invitation store with `{hash}` or `{hash, email}` depending
on whether an email was supplied. -/
def getUserInvitation (s : AuthState) (hash : String) (email : Option String) :
    Option UserInvitation :=
  s.invitations.find? (fun i =>
    match email with
    | none => i.hash == hash
    | some e => i.hash == hash && i.email == e)

/-- Embeds `signinUser` (controller.ts:36-67). -/
def signinUser (sv : Services) (body : SigninBody) (s : AuthState) :
    Outcome × AuthState :=
  match body.user with
  | none => (Outcome.nextError destructuringError, s)
  | some p =>
    if p.email == "" || p.password == "" then
      (Outcome.jsonError 400 "Invalid request", s)
    else
      match s.users.find? (fun w => w.email == p.email && w.active) with
      | none => (Outcome.jsonError 401 "Wrong email or password", s)
      | some w =>
        if !(sv.verifyPassword p.password w.password) then
          (Outcome.jsonError 401 "Wrong email or password", s)
        else
          -- token creation, then `delete user.password` on the projection
          (Outcome.dataUserToken 200
            { id := w.id, email := w.email, firstname := w.firstname,
              lastname := w.lastname, password := none }
            (sv.createToken w.id), s)

/-- Embeds `validateRegistrationHash` (controller.ts:78-91). -/
def validateRegistrationHash (hash : String) (s : AuthState) :
    Outcome × AuthState :=
  if hash == "" then
    (Outcome.jsonError 400 "Invalid request", s)
  else
    match getUserInvitation s hash none with
    | some _ => (Outcome.empty 204, s)
    | none => (Outcome.jsonError 403 "Invalid hash", s)

/-- The row persisted by `userService.save({...req.body.user, password:
hashed, userRole: {id: 1, name: 'User'}})` (controller.ts:129-136): the
supplied fields, the hashed password overriding the supplied one, the
default role, and a store-assigned id. -/
def savedNewUser (sv : Services) (s : AuthState) (u : UserPayload) : User :=
  { id := s.nextId, email := u.email, firstname := u.firstname,
    lastname := u.lastname, active := u.active,
    password := some (sv.hashPassword u.password),
    userRole := some { id := 1, name := "User" } }

/-- The in-memory projection of the created user after
`delete newUser.password` (controller.ts:142); it is discarded, the
response being an empty 204. -/
def createdUserProjection (u : User) : User :=
  { u with password := none }

/-- Embeds `registerUser` (controller.ts:102-151). Note the order: the
body's `user` object is destructured first (throwing when absent), the
`{hash, email}` invitation lookup runs before the email-ownership check,
and `!req.body.user` in the 400 guard is unreachable (the destructuring
already succeeded). -/
def registerUser (sv : Services) (hash : String) (body : RegisterBody)
    (s : AuthState) : Outcome × AuthState :=
  match body.user with
  | none => (Outcome.nextError destructuringError, s)
  | some u =>
    if u.email == "" then
      (Outcome.jsonError 400 "Invalid request", s)
    else
      match getUserInvitation s hash (some u.email) with
      | none => (Outcome.jsonError 403 "Invalid hash", s)
      | some inv =>
        match s.users.find? (fun w => w.email == u.email) with
        | some _ => (Outcome.jsonError 400 "Email is already taken", s)
        | none =>
          let newUser := savedNewUser sv s u
          let s1 : AuthState :=
            { s with users := s.users ++ [newUser], nextId := s.nextId + 1 }
          let s2 : AuthState :=
            { s1 with cache := s1.cache.filter (fun k => k != "user") }
          let s3 : AuthState :=
            { s2 with invitations :=
                s2.invitations.filter (fun i => i.id != inv.id) }
          (Outcome.empty 204, s3)

/-- Embeds `createUserInvitation` (controller.ts:162-195). -/
def createUserInvitation (sv : Services) (email : String) (s : AuthState) :
    Outcome × AuthState :=
  if email == "" || !(sv.isEmail email) then
    (Outcome.jsonError 400 "Invalid request", s)
  else
    match s.users.find? (fun w => w.email == email) with
    | some _ => (Outcome.jsonError 400 "Email is already taken", s)
    | none =>
      let hash := sv.generateUuid
      let inv : UserInvitation := { id := s.nextInvId, email := email, hash := hash }
      let s1 : AuthState :=
        { s with invitations := s.invitations ++ [inv], nextInvId := s.nextInvId + 1 }
      let s2 : AuthState :=
        { s1 with sentMails := s1.sentMails ++ [(email, hash)] }
      (Outcome.empty 204, s2)

/-- Embeds `unregisterUser` (controller.ts:206-234); `email` is the
authenticated principal's email from `req.user`. -/
def unregisterUser (email : String) (s : AuthState) : Outcome × AuthState :=
  if email == "" then
    (Outcome.jsonError 400 "Invalid request", s)
  else
    match s.users.find? (fun w => w.email == email) with
    | none => (Outcome.jsonError 404 "User not found", s)
    | some u =>
      let s1 : AuthState :=
        { s with users := s.users.filter (fun w => w.id != u.id) }
      let s2 : AuthState :=
        { s1 with cache := s1.cache.filter (fun k => k != "user") }
      (Outcome.empty 204, s2)

/-- UTF-8 encoding of one character as its byte values. -/
def utf8Bytes (c : Char) : List Nat :=
  let n := c.toNat
  if n < 0x80 then [n]
  else if n < 0x800 then [0xC0 + n / 0x40, 0x80 + n % 0x40]
  else if n < 0x10000 then
    [0xE0 + n / 0x1000, 0x80 + (n / 0x40) % 0x40, 0x80 + n % 0x40]
  else
    [0xF0 + n / 0x40000, 0x80 + (n / 0x1000) % 0x40,
     0x80 + (n / 0x40) % 0x40, 0x80 + n % 0x40]

/-- Characters Node's `querystring.escape` leaves unescaped:
alphanumerics and `- . _ ~ ! * ' ( )`. -/
def qsUnescapedChar (c : Char) : Bool :=
  (c ≥ 'a' && c ≤ 'z') || (c ≥ 'A' && c ≤ 'Z') || (c ≥ '0' && c ≤ '9') ||
  c == '-' || c == '.' || c == '_' || c == '~' || c == '!' || c == '*' ||
  c == Char.ofNat 39 || c == '(' || c == ')'

/-- Uppercase hexadecimal digit for `n < 16`. -/
def hexDigitUpper (n : Nat) : Char :=
  if n < 10 then Char.ofNat (48 + n) else Char.ofNat (55 + n)

/-- Percent-encoding `%HH` of one byte value, uppercase hex. -/
def percentEncodeByte (b : Nat) : String :=
  "%" ++ String.singleton (hexDigitUpper (b / 16)) ++
    String.singleton (hexDigitUpper (b % 16))

/-- Node `querystring.escape`: percent-encode every character outside the
unescaped set, byte by byte of its UTF-8 encoding. -/
def qsEscape (s : String) : String :=
  s.toList.foldl
    (fun acc c =>
      if qsUnescapedChar c then acc.push c
      else acc ++ String.join ((utf8Bytes c).map percentEncodeByte))
    ""

/-- Node `querystring.stringify` on an ordered list of key/value pairs:
`k1=v1&k2=v2&...` with both keys and values escaped. -/
def qsStringifyPairs : List (String × String) → String
  | [] => ""
  | [p] => qsEscape p.1 ++ "=" ++ qsEscape p.2
  | p :: q :: rest =>
    qsEscape p.1 ++ "=" ++ qsEscape p.2 ++ "&" ++ qsStringifyPairs (q :: rest)

/-- OAuth environment configuration (`env.GITHUB.id`). -/
structure Env where
  githubId : String

/-- The URL built by `handleGitHubAuth` (controller.ts:245-248). -/
def githubAuthorizeUrl (clientId : String) : String :=
  "https://github.com/login/oauth/authorize?" ++
    qsStringifyPairs [("client_id", clientId), ("scope", "user:email")]

/-- Embeds `handleGitHubAuth` (controller.ts:243-257): always responds
`res.json({data: url, status: 200})`, ignoring the request. -/
def handleGitHubAuth (e : Env) (s : AuthState) : Outcome × AuthState :=
  (Outcome.dataUrl 200 (githubAuthorizeUrl e.githubId), s)

/-! ### Concrete fixtures used by witnesses and counterexamples -/

/-- Concrete service instantiation for witnesses: a transparent hash,
the matching verifier, a token derived from the id, a small accepted
email set, and a fixed generated UUID. -/
def demoServices : Services :=
  { hashPassword := fun p => "hashed:" ++ p
    verifyPassword := fun p h => h == some ("hashed:" ++ p)
    createToken := fun i => "token:" ++ toString i
    isEmail := fun e => e == "a@x.com" || e == "b@x.com"
    generateUuid := "uuid-1" }

/-- A stored active user with a known password hash. -/
def demoUser : User :=
  { id := 1, email := "a@x.com", firstname := "Ada", lastname := "X",
    password := some "hashed:p1", active := true,
    userRole := some { id := 1, name := "User" } }

/-- A stored invitation for a second email. -/
def demoInvitation : UserInvitation :=
  { id := 5, email := "b@x.com", hash := "hash-b" }

/-- A demo store state holding `demoUser` and `demoInvitation`. -/
def demoState : AuthState :=
  { users := [demoUser], invitations := [demoInvitation],
    cache := ["user"], sentMails := [], nextId := 2, nextInvId := 6 }

/-! ### Helper lemmas shared by the claim theorems -/

/-- On a present payload with an empty email, `registerUser` answers 400
and leaves the state unchanged. -/
theorem registerUser_empty_email (sv : Services) (hash : String)
    (u : UserPayload) (s : AuthState) (he : u.email = "") :
    registerUser sv hash { user := some u } s =
      (Outcome.jsonError 400 "Invalid request", s) := by
  simp [registerUser, he]

/-- When no invitation matches `{hash, email}`, `registerUser` answers
403 `Invalid hash` and leaves the state unchanged. -/
theorem registerUser_invalid_hash (sv : Services) (hash : String)
    (u : UserPayload) (s : AuthState) (he : u.email ≠ "")
    (hnone : getUserInvitation s hash (some u.email) = none) :
    registerUser sv hash { user := some u } s =
      (Outcome.jsonError 403 "Invalid hash", s) := by
  simp [registerUser, he, hnone]

/-- When an invitation matches and some user already owns the email,
`registerUser` answers 400 `Email is already taken`, state unchanged. -/
theorem registerUser_email_taken (sv : Services) (hash : String)
    (u : UserPayload) (s : AuthState) (inv : UserInvitation) (w : User)
    (he : u.email ≠ "")
    (hfound : getUserInvitation s hash (some u.email) = some inv)
    (howned : s.users.find? (fun v => v.email == u.email) = some w) :
    registerUser sv hash { user := some u } s =
      (Outcome.jsonError 400 "Email is already taken", s) := by
  simp [registerUser, he, hfound, howned]

/-- On the success path, `registerUser` appends the saved user, clears
cache key `user`, deletes the matched invitation row, and answers 204. -/
theorem registerUser_success (sv : Services) (hash : String)
    (u : UserPayload) (s : AuthState) (inv : UserInvitation)
    (he : u.email ≠ "")
    (hfound : getUserInvitation s hash (some u.email) = some inv)
    (hnouser : s.users.find? (fun v => v.email == u.email) = none) :
    registerUser sv hash { user := some u } s =
      (Outcome.empty 204,
       { users := s.users ++ [savedNewUser sv s u],
         invitations := s.invitations.filter (fun i => i.id != inv.id),
         cache := s.cache.filter (fun k => k != "user"),
         sentMails := s.sentMails,
         nextId := s.nextId + 1,
         nextInvId := s.nextInvId }) := by
  simp [registerUser, he, hfound, hnouser]

/-! ### Claim theorems -/

/-- C3: for a sign-in request with non-empty email and password, if the
store holds an active user with that email and password verification
succeeds, the response is 200 with a token bound to the user id and the
user projection with the password removed; if no active user exists or
verification fails, the response is 401 `Wrong email or password` — the
identical message in both cases — and the state is unchanged throughout. -/
theorem signin_spec (sv : Services) (p : SigninPayload) (s : AuthState)
    (he : p.email ≠ "") (hp : p.password ≠ "") :
    (∀ w, s.users.find? (fun v => v.email == p.email && v.active) = some w →
      (sv.verifyPassword p.password w.password = true →
        signinUser sv { user := some p } s =
          (Outcome.dataUserToken 200
            { id := w.id, email := w.email, firstname := w.firstname,
              lastname := w.lastname, password := none }
            (sv.createToken w.id), s)) ∧
      (sv.verifyPassword p.password w.password = false →
        signinUser sv { user := some p } s =
          (Outcome.jsonError 401 "Wrong email or password", s))) ∧
    (s.users.find? (fun v => v.email == p.email && v.active) = none →
      signinUser sv { user := some p } s =
        (Outcome.jsonError 401 "Wrong email or password", s)) := by
  refine ⟨fun w hw => ⟨fun hv => ?_, fun hv => ?_⟩, fun hn => ?_⟩
  · simp [signinUser, he, hp, hw, hv]
  · simp [signinUser, he, hp, hw, hv]
  · simp [signinUser, he, hp, hn]

/-- Witness for C3 at a concrete state: correct credentials for the
stored active demo user yield 200 with the password-free projection and
the id-bound token. -/
theorem signin_spec_witness :
    signinUser demoServices
        { user := some { email := "a@x.com", password := "p1" } } demoState =
      (Outcome.dataUserToken 200
        { id := 1, email := "a@x.com", firstname := "Ada", lastname := "X",
          password := none }
        "token:1", demoState) :=
  ((signin_spec demoServices { email := "a@x.com", password := "p1" }
      demoState (by decide) (by decide)).1 demoUser rfl).1 rfl

/-- C8: invitation-hash validation answers 400 on an empty hash;
otherwise it queries the invitation store by hash alone and answers an
empty 204 when an invitation is found and 403 `Invalid hash` when none
is, never changing the state. -/
theorem validate_hash_spec (hash : String) (s : AuthState) :
    (hash = "" →
      validateRegistrationHash hash s =
        (Outcome.jsonError 400 "Invalid request", s)) ∧
    (hash ≠ "" → ∀ inv, getUserInvitation s hash none = some inv →
      validateRegistrationHash hash s = (Outcome.empty 204, s)) ∧
    (hash ≠ "" → getUserInvitation s hash none = none →
      validateRegistrationHash hash s =
        (Outcome.jsonError 403 "Invalid hash", s)) := by
  refine ⟨fun h => ?_, fun h inv hinv => ?_, fun h hn => ?_⟩
  · simp [validateRegistrationHash, h]
  · simp [validateRegistrationHash, h, hinv]
  · simp [validateRegistrationHash, h, hn]

/-- Witness for C8 at a concrete state: the stored demo invitation's
hash validates with an empty 204. -/
theorem validate_hash_spec_witness :
    validateRegistrationHash "hash-b" demoState = (Outcome.empty 204, demoState) :=
  (validate_hash_spec "hash-b" demoState).2.1 (by decide) demoInvitation rfl

/-- C7: for an unregistration request with a non-empty principal email,
if no user with that email exists the response is 404 `User not found`
with the state unchanged; if one exists, that user is deleted, cache key
`user` is invalidated, and the response is an empty 204. -/
theorem unregister_spec (email : String) (s : AuthState) (he : email ≠ "") :
    (s.users.find? (fun w => w.email == email) = none →
      unregisterUser email s = (Outcome.jsonError 404 "User not found", s)) ∧
    (∀ u, s.users.find? (fun w => w.email == email) = some u →
      (unregisterUser email s).1 = Outcome.empty 204 ∧
      (unregisterUser email s).2.users = s.users.filter (fun w => w.id != u.id) ∧
      (unregisterUser email s).2.cache = s.cache.filter (fun k => k != "user") ∧
      (unregisterUser email s).2.invitations = s.invitations ∧
      (unregisterUser email s).2.sentMails = s.sentMails) := by
  refine ⟨fun hn => ?_, fun u hu => ?_⟩
  · simp [unregisterUser, he, hn]
  · refine ⟨?_, ?_, ?_, ?_, ?_⟩ <;> simp [unregisterUser, he, hu]

/-- Witness for C7 at a concrete state: unregistering the stored demo
user deletes it, clears the cached `user` key and answers 204. -/
theorem unregister_spec_witness :
    (unregisterUser "a@x.com" demoState).1 = Outcome.empty 204 ∧
    (unregisterUser "a@x.com" demoState).2.users = [] ∧
    (unregisterUser "a@x.com" demoState).2.cache = [] ∧
    (unregisterUser "a@x.com" demoState).2.invitations = [demoInvitation] ∧
    (unregisterUser "a@x.com" demoState).2.sentMails = [] :=
  (unregister_spec "a@x.com" demoState (by decide)).2 demoUser rfl

/-- C10: a sign-in request whose body lacks a `user` object never reaches
the 400 `Invalid request` branch: the destructuring of `req.body.user`
throws first and the error is forwarded unchanged to `next(err)`, with
the collaborator state untouched. -/
theorem signin_missing_user_spec (sv : Services) (s : AuthState) :
    signinUser sv { user := none } s = (Outcome.nextError destructuringError, s) ∧
    ∀ st e, (signinUser sv { user := none } s).1 ≠ Outcome.jsonError st e := by
  refine ⟨rfl, fun st e h => ?_⟩
  simp [signinUser] at h

/-- Witness for C10 at a concrete state: the missing-payload sign-in
forwards the destructuring error and leaves the demo state unchanged. -/
theorem signin_missing_user_spec_witness :
    signinUser demoServices { user := none } demoState =
      (Outcome.nextError destructuringError, demoState) :=
  (signin_missing_user_spec demoServices demoState).1

/-- Registration payload for the email owned by `demoUser`. -/
def demoPayload : UserPayload :=
  { email := "a@x.com", password := "p2", firstname := "Ada", lastname := "X",
    active := true }

/-- Registration payload with an empty (absent) email field. -/
def emptyEmailPayload : UserPayload :=
  { email := "", password := "p2", firstname := "N", lastname := "N",
    active := true }

/-- A stored invitation for the email owned by `demoUser`. -/
def demoInvitationA : UserInvitation :=
  { id := 9, email := "a@x.com", hash := "hash-a" }

/-- A state where `a@x.com` is owned by a user and no invitation exists. -/
def ownedOnlyState : AuthState :=
  { users := [demoUser], invitations := [], cache := [], sentMails := [],
    nextId := 2, nextInvId := 1 }

/-- A state where `a@x.com` is owned and a matching invitation exists. -/
def ownedWithInvState : AuthState :=
  { users := [demoUser], invitations := [demoInvitationA], cache := [],
    sentMails := [], nextId := 2, nextInvId := 10 }

/-- A state ready for a successful registration of `a@x.com`: a matching
invitation, no user owning the email, and a populated cache. -/
def regState : AuthState :=
  { users := [], invitations := [demoInvitationA], cache := ["user"],
    sentMails := [], nextId := 1, nextInvId := 10 }

/-- C1 counterexample: in a state where `a@x.com` is owned by a stored
user but no invitation matches the supplied hash, `registerUser` answers
403 `Invalid hash`, not 400 `Email is already taken` — the invitation
check runs first, so the 400 is not unconditional. -/
theorem register_email_taken_cx :
    (ownedOnlyState.users.find? (fun w => w.email == "a@x.com")).isSome = true ∧
    (registerUser demoServices "hash-a" { user := some demoPayload }
        ownedOnlyState).1 = Outcome.jsonError 403 "Invalid hash" ∧
    (registerUser demoServices "hash-a" { user := some demoPayload }
        ownedOnlyState).1 ≠ Outcome.jsonError 400 "Email is already taken" := by
  refine ⟨rfl, rfl, by decide⟩

/-- C1 amended: with a non-empty email owned by a stored user (active or
not), `registerUser` answers 400 `Email is already taken` when an
invitation matches `{hash, email}`, but 403 `Invalid hash` when none
does; the state is unchanged either way. -/
theorem register_email_taken_amended (sv : Services) (hash : String)
    (u : UserPayload) (s : AuthState) (w : User) (he : u.email ≠ "")
    (howned : s.users.find? (fun v => v.email == u.email) = some w) :
    (∀ inv, getUserInvitation s hash (some u.email) = some inv →
      registerUser sv hash { user := some u } s =
        (Outcome.jsonError 400 "Email is already taken", s)) ∧
    (getUserInvitation s hash (some u.email) = none →
      registerUser sv hash { user := some u } s =
        (Outcome.jsonError 403 "Invalid hash", s)) :=
  ⟨fun inv hinv => registerUser_email_taken sv hash u s inv w he hinv howned,
   fun hn => registerUser_invalid_hash sv hash u s he hn⟩

/-- Witness for the amended C1: with the matching invitation present and
the email owned, the concrete run answers 400 `Email is already taken`. -/
theorem register_email_taken_amended_witness :
    registerUser demoServices "hash-a" { user := some demoPayload }
        ownedWithInvState =
      (Outcome.jsonError 400 "Email is already taken", ownedWithInvState) :=
  (register_email_taken_amended demoServices "hash-a" demoPayload
      ownedWithInvState demoUser (by decide) rfl).1 demoInvitationA rfl

/-- C2 counterexample: a registration request without a `user` payload
object does not produce the 400 `Invalid request` response; the
destructuring error is forwarded to `next(err)` instead. -/
theorem register_missing_payload_cx :
    registerUser demoServices "hash-a" { user := none } demoState =
      (Outcome.nextError destructuringError, demoState) ∧
    (registerUser demoServices "hash-a" { user := none } demoState).1 ≠
      Outcome.jsonError 400 "Invalid request" := by
  refine ⟨rfl, by decide⟩

/-- C2 amended: when the `user` payload object is absent, destructuring
throws and the error is forwarded to `next(err)` — no JSON error response
is produced — with the state untouched; when the payload is present but
its email is absent/empty, the response is 400 `Invalid request` with the
state untouched. -/
theorem register_validation_amended (sv : Services) (hash : String)
    (body : RegisterBody) (s : AuthState) :
    (body.user = none →
      registerUser sv hash body s = (Outcome.nextError destructuringError, s) ∧
      ∀ st e, (registerUser sv hash body s).1 ≠ Outcome.jsonError st e) ∧
    (∀ u, body.user = some u → u.email = "" →
      registerUser sv hash body s =
        (Outcome.jsonError 400 "Invalid request", s)) := by
  obtain ⟨bu⟩ := body
  refine ⟨fun hn => ?_, fun u hu he => ?_⟩
  · cases hn
    exact ⟨rfl, fun st e h => by simp [registerUser] at h⟩
  · cases hu
    exact registerUser_empty_email sv hash u s he

/-- Witness for the amended C2: a present payload with an empty email
yields the 400 `Invalid request` response on the demo state. -/
theorem register_validation_amended_witness :
    registerUser demoServices "hash-a" { user := some emptyEmailPayload }
        demoState = (Outcome.jsonError 400 "Invalid request", demoState) :=
  (register_validation_amended demoServices "hash-a"
      { user := some emptyEmailPayload } demoState).2 emptyEmailPayload rfl rfl

/-- C4: starting from a state holding exactly one invitation matching
`{hash, email}` and no user owning the email, running registration with
valid inputs answers 204, and running it again with the identical inputs
answers 403 `Invalid hash`, because the first run deleted the invitation. -/
theorem register_twice_spec (sv : Services) (hash : String) (u : UserPayload)
    (s : AuthState) (inv : UserInvitation) (he : u.email ≠ "")
    (hfound : getUserInvitation s hash (some u.email) = some inv)
    (huniq : ∀ i ∈ s.invitations, i.hash = hash → i.email = u.email → i = inv)
    (hnouser : s.users.find? (fun v => v.email == u.email) = none) :
    (registerUser sv hash { user := some u } s).1 = Outcome.empty 204 ∧
    (registerUser sv hash { user := some u }
        (registerUser sv hash { user := some u } s).2).1 =
      Outcome.jsonError 403 "Invalid hash" := by
  have h1 := registerUser_success sv hash u s inv he hfound hnouser
  have hnone : getUserInvitation (registerUser sv hash { user := some u } s).2
      hash (some u.email) = none := by
    rw [h1]
    simp only [getUserInvitation]
    apply List.find?_eq_none.mpr
    intro i hi hpred
    rw [List.mem_filter] at hi
    obtain ⟨his, hid⟩ := hi
    simp at hpred hid
    exact hid (by rw [huniq i his hpred.1 hpred.2])
  exact ⟨by rw [h1], by rw [registerUser_invalid_hash sv hash u _ he hnone]⟩

/-- Witness for C4 at a concrete state: the first registration of
`a@x.com` answers 204 and the immediate rerun answers 403 `Invalid hash`. -/
theorem register_twice_spec_witness :
    (registerUser demoServices "hash-a" { user := some demoPayload }
        regState).1 = Outcome.empty 204 ∧
    (registerUser demoServices "hash-a" { user := some demoPayload }
        (registerUser demoServices "hash-a" { user := some demoPayload }
          regState).2).1 = Outcome.jsonError 403 "Invalid hash" :=
  register_twice_spec demoServices "hash-a" demoPayload regState
    demoInvitationA (by decide) rfl (by decide) rfl

/-- C5: on the registration success path the handler persists the
supplied fields merged with the hashed password and the default role
`{id := 1, name := User}` under a fresh id, invalidates cache key `user`,
deletes the consumed invitation, leaves the mail log alone, answers an
empty 204, and the created-user projection carries no password. -/
theorem register_success_spec (sv : Services) (hash : String)
    (u : UserPayload) (s : AuthState) (inv : UserInvitation)
    (he : u.email ≠ "")
    (hfound : getUserInvitation s hash (some u.email) = some inv)
    (hnouser : s.users.find? (fun v => v.email == u.email) = none) :
    registerUser sv hash { user := some u } s =
      (Outcome.empty 204,
       { users := s.users ++ [savedNewUser sv s u],
         invitations := s.invitations.filter (fun i => i.id != inv.id),
         cache := s.cache.filter (fun k => k != "user"),
         sentMails := s.sentMails,
         nextId := s.nextId + 1,
         nextInvId := s.nextInvId }) ∧
    (savedNewUser sv s u).password = some (sv.hashPassword u.password) ∧
    (savedNewUser sv s u).userRole = some { id := 1, name := "User" } ∧
    (savedNewUser sv s u).email = u.email ∧
    (createdUserProjection (savedNewUser sv s u)).password = none ∧
    "user" ∉ (registerUser sv hash { user := some u } s).2.cache := by
  have h1 := registerUser_success sv hash u s inv he hfound hnouser
  refine ⟨h1, rfl, rfl, rfl, rfl, ?_⟩
  rw [h1]
  simp [List.mem_filter]

/-- Witness for C5 at a concrete state: registering `a@x.com` with a
matching invitation stores the merged user, empties the invitation store
and the cache, and answers 204. -/
theorem register_success_spec_witness :
    registerUser demoServices "hash-a" { user := some demoPayload } regState =
      (Outcome.empty 204,
       { users := [{ id := 1, email := "a@x.com", firstname := "Ada",
                     lastname := "X", password := some "hashed:p2",
                     active := true,
                     userRole := some { id := 1, name := "User" } }],
         invitations := [], cache := [], sentMails := [],
         nextId := 2, nextInvId := 10 }) ∧
    (savedNewUser demoServices regState demoPayload).password =
      some "hashed:p2" ∧
    (savedNewUser demoServices regState demoPayload).userRole =
      some { id := 1, name := "User" } ∧
    (savedNewUser demoServices regState demoPayload).email = "a@x.com" ∧
    (createdUserProjection (savedNewUser demoServices regState demoPayload)).password = none ∧
    "user" ∉ (registerUser demoServices "hash-a" { user := some demoPayload }
        regState).2.cache :=
  register_success_spec demoServices "hash-a" demoPayload regState
    demoInvitationA (by decide) rfl rfl

/-- C6: invitation creation answers 400 `Invalid request` on a missing
email or one failing format validation, 400 `Email is already taken` when
a stored user owns the email (state unchanged in both cases); otherwise
it persists an invitation `{email, hash}` under the freshly generated
hash, sends an invitation mail carrying that hash to the address, leaves
the user store and cache alone, and answers an empty 204. -/
theorem create_invitation_spec (sv : Services) (email : String)
    (s : AuthState) :
    ((email = "" ∨ sv.isEmail email = false) →
      createUserInvitation sv email s =
        (Outcome.jsonError 400 "Invalid request", s)) ∧
    (email ≠ "" → sv.isEmail email = true →
      ∀ w, s.users.find? (fun v => v.email == email) = some w →
      createUserInvitation sv email s =
        (Outcome.jsonError 400 "Email is already taken", s)) ∧
    (email ≠ "" → sv.isEmail email = true →
      s.users.find? (fun v => v.email == email) = none →
      (createUserInvitation sv email s).1 = Outcome.empty 204 ∧
      (createUserInvitation sv email s).2.invitations =
        s.invitations ++ [⟨s.nextInvId, email, sv.generateUuid⟩] ∧
      (createUserInvitation sv email s).2.sentMails =
        s.sentMails ++ [(email, sv.generateUuid)] ∧
      (createUserInvitation sv email s).2.users = s.users ∧
      (createUserInvitation sv email s).2.cache = s.cache ∧
      (createUserInvitation sv email s).2.nextInvId = s.nextInvId + 1) := by
  refine ⟨fun h => ?_, fun he hv w hw => ?_, fun he hv hn => ?_⟩
  · rcases h with h | h
    · simp [createUserInvitation, h]
    · simp [createUserInvitation, h]
  · simp [createUserInvitation, he, hv, hw]
  · refine ⟨?_, ?_, ?_, ?_, ?_, ?_⟩ <;> simp [createUserInvitation, he, hv, hn]

/-- Witness for C6 at a concrete state: creating an invitation for the
unowned, well-formed address `b@x.com` persists `{b@x.com, uuid-1}`,
mails the hash to it, and answers 204. -/
theorem create_invitation_spec_witness :
    (createUserInvitation demoServices "b@x.com" demoState).1 =
      Outcome.empty 204 ∧
    (createUserInvitation demoServices "b@x.com" demoState).2.invitations =
      [demoInvitation, ⟨6, "b@x.com", "uuid-1"⟩] ∧
    (createUserInvitation demoServices "b@x.com" demoState).2.sentMails =
      [("b@x.com", "uuid-1")] ∧
    (createUserInvitation demoServices "b@x.com" demoState).2.users =
      [demoUser] ∧
    (createUserInvitation demoServices "b@x.com" demoState).2.cache =
      ["user"] ∧
    (createUserInvitation demoServices "b@x.com" demoState).2.nextInvId = 7 :=
  (create_invitation_spec demoServices "b@x.com" demoState).2.2
    (by decide) rfl rfl

/-- C9: for every request and state, the OAuth authorize handler answers
200 with `{data: url}` where `url` is the fixed GitHub authorization
endpoint whose query string carries the configured client id and
`scope=user:email` (percent-encoded as `user%3Aemail`), and no HTTP
redirect outcome is produced. -/
theorem github_auth_spec (e : Env) (s : AuthState) :
    handleGitHubAuth e s =
      (Outcome.dataUrl 200 (githubAuthorizeUrl e.githubId), s) ∧
    githubAuthorizeUrl e.githubId =
      "https://github.com/login/oauth/authorize?" ++
        (qsEscape "client_id" ++ "=" ++ qsEscape e.githubId ++ "&" ++
          (qsEscape "scope" ++ "=" ++ qsEscape "user:email")) ∧
    qsEscape "scope" ++ "=" ++ qsEscape "user:email" = "scope=user%3Aemail" ∧
    ∀ st l, (handleGitHubAuth e s).1 ≠ Outcome.redirect st l := by
  refine ⟨rfl, rfl, by decide, fun st l h => ?_⟩
  simp [handleGitHubAuth] at h

/-- Witness for C9 at a concrete client id: the returned URL is the
literal GitHub endpoint with the encoded query string. -/
theorem github_auth_spec_witness :
    handleGitHubAuth { githubId := "client123" } demoState =
      (Outcome.dataUrl 200
        "https://github.com/login/oauth/authorize?client_id=client123&scope=user%3Aemail",
       demoState) :=
  (github_auth_spec { githubId := "client123" } demoState).1
